import Mathlib

/-!
Shallow embedding of `supabase/functions/health-analyzer/index.ts`.

The file models the two webhook handlers of the repository:

* `handleNewReport` — the risk-scoring pipeline run on insertion of a
  report row.  The effectful dependencies (the 7-day history query, the
  OpenWeatherMap call, the report update, the Twilio send) are passed in
  as explicit values: the history query result is an
  `Option (List Nat)` (`none` models a query error, which the code
  logs and treats like an absent window), and the weather call result is
  a `WeatherFetch` value covering the 2xx, non-2xx and thrown-error
  outcomes of the `fetch`.  The pipeline itself is a total Lean
  function, mirroring the fact that every failure path in the source is
  caught and converted to a sentinel value rather than propagated.
* `handleNewUser` — the role-assignment flow, with the allowlist table
  and a lookup-error flag passed in explicitly.

JavaScript truthiness tests that the source relies on (`if (lat && lon)`,
`if (!userPhoneNumber)`, `errorBody.message || 'Invalid Key?'`) are
modelled by the `numTruthy` / `strTruthy` / `strOrDefault` helpers, and
optional JSON fields by `Option`.  Case counts are natural numbers, per
the data-model invariant that they are non-negative integers.
-/

/-- JS truthiness of an optional numeric field: absent, `null` or `0` is
falsy (used for `if (lat && lon)`). -/
def numTruthy : Option ℚ → Bool
  | none => false
  | some v => v != 0

/-- JS truthiness of an optional string field: absent, `null` or the
empty string is falsy (used for `if (!userPhoneNumber)`). -/
def strTruthy : Option String → Bool
  | none => false
  | some s => s != ""

/-- JS `a || b` on an optional string `a`
(`errorBody.message || 'Invalid Key?'`). -/
def strOrDefault : Option String → String → String
  | none, d => d
  | some s, d => if s = "" then d else s

/-- Whether `sub` is an initial segment of `s` (character lists). -/
def listStartsWith : List Char → List Char → Bool
  | _, [] => true
  | [], _ :: _ => false
  | a :: as, b :: bs => a = b && listStartsWith as bs

/-- Whether `sub` occurs contiguously in `s` (character lists). -/
def listHasSub : List Char → List Char → Bool
  | [], sub => sub.isEmpty
  | a :: rest, sub => listStartsWith (a :: rest) sub || listHasSub rest sub

/-- JS `String.prototype.includes`: contiguous-substring test. -/
def jsIncludes (s sub : String) : Bool := listHasSub s.data sub.data

/-- JS `String.prototype.toLowerCase` (ASCII, which covers the
OpenWeatherMap category strings). -/
def lowerStr (s : String) : String := ⟨s.data.map Char.toLower⟩

/-- A report row as consumed by `handleNewReport` (after the RPC
re-fetch has picked the record to analyze).  Optional fields model JSON
fields that may be absent. -/
structure Report where
  id : Nat
  village_name : String
  diarrhea_cases : Option Nat
  fever_cases : Option Nat
  vomiting_cases : Option Nat
  cases_in_children : Option Nat
  water_source_tested : Option String
  lat : Option ℚ
  lon : Option ℚ
deriving Repr, DecidableEq

/-- Outcome of the OpenWeatherMap `fetch`:
`success` is a 2xx response carrying `weather[0].description`, the
rendered `main.temp`, and `weather[0].main`; `apiError` is a non-2xx
response whose JSON body optionally carries a `message`; `fetchError` is
a thrown transport/parse error (the `catch` branch). -/
inductive WeatherFetch where
  | success (description : String) (temp : String) (mainCategory : String)
  | apiError (message : Option String)
  | fetchError
deriving Repr, DecidableEq

/-- The note pushed by the temporal (velocity) analysis. -/
def trendNote : String := "Case velocity is high (3x historical average)."

/-- The note pushed by the demographic analysis. -/
def demographicNote : String := "High number of cases in children under 5."

/-- The note pushed by the rain check. -/
def rainNote : String := "Recent rain increases contamination risk."

/-- The note pushed by the water-source check, naming the source. -/
def waterNote (src : String) : String :=
  "Shared water source (" ++ src ++ ") adds risk."

/-- `recentReports.reduce((sum, r) => sum + r.diarrhea_cases, 0) /
recentReports.length`: the arithmetic mean of the historical diarrhea
case counts, as an exact rational. -/
def histAvg (recentReports : List Nat) : ℚ :=
  (recentReports.sum : ℚ) / (recentReports.length : ℚ)

/-- `avgDiarrhea > 0 && reportToAnalyze.diarrhea_cases > avgDiarrhea * 3`;
an absent `diarrhea_cases` compares as false in JS. -/
def trendHit (r : Report) (recentReports : List Nat) : Bool :=
  decide (0 < histAvg recentReports) &&
    (match r.diarrhea_cases with
     | none => false
     | some d => decide (histAvg recentReports * 3 < (d : ℚ)))

/-- Step 1, temporal analysis: `history = none` models a history-query
error (logged, no contribution); otherwise the trailing-window rows are
averaged and the velocity rule applies. -/
def trendStep (r : Report) (history : Option (List Nat)) : Nat × List String :=
  match history with
  | none => (0, [])
  | some recentReports =>
    if 0 < recentReports.length then
      if trendHit r recentReports then (40, [trendNote]) else (0, [])
    else (0, [])

/-- Step 2, demographic analysis:
`if (reportToAnalyze.cases_in_children > 5)`; an absent field compares
as false in JS. -/
def demographicStep (r : Report) : Nat × List String :=
  match r.cases_in_children with
  | none => (0, [])
  | some c => if 5 < c then (50, [demographicNote]) else (0, [])

/-- `(diarrhea_cases || 0) + (fever_cases || 0) + (vomiting_cases || 0)`. -/
def totalCases (r : Report) : Nat :=
  r.diarrhea_cases.getD 0 + r.fever_cases.getD 0 + r.vomiting_cases.getD 0

/-- Step 3, symptom severity analysis. -/
def severityStep (r : Report) : Nat × List String :=
  if 15 < totalCases r then (30, ["High total case count."])
  else if 8 < totalCases r then (15, ["Moderate total case count."])
  else (0, [])

/-- Step 4, environmental (water) analysis. -/
def waterStep (r : Report) : Nat × List String :=
  match r.water_source_tested with
  | none => (0, [])
  | some src =>
    if src = "Community Well" ∨ src = "River" then (10, [waterNote src])
    else (0, [])

/-- `if (lat && lon)`: both coordinates present and non-zero. -/
def coordsResolved (r : Report) : Bool := numTruthy r.lat && numTruthy r.lon

/-- Result of the weather block: the `weatherInfo` snapshot string and
the score/notes contribution. -/
structure WeatherOutcome where
  info : String
  score : Nat
  notes : List String
deriving Repr, DecidableEq

/-- Step 5, weather analysis.  The lookup is attempted only when
`coordsResolved`; a 2xx response builds the snapshot and applies the
rain rule (`weather[0].main.toLowerCase().includes("rain")`); a non-2xx
response sets `API Error: ...`; a thrown error sets `Fetch Error`;
unresolved coordinates set `Location could not be processed`. -/
def weatherStep (r : Report) (w : WeatherFetch) : WeatherOutcome :=
  if coordsResolved r then
    match w with
    | .success description temp mainCategory =>
      let weatherInfo := description ++ ", " ++ temp ++ "°C"
      if jsIncludes (lowerStr mainCategory) "rain" then
        ⟨weatherInfo, 10, [rainNote]⟩
      else ⟨weatherInfo, 0, []⟩
    | .apiError message =>
      ⟨"API Error: " ++ strOrDefault message "Invalid Key?", 0, []⟩
    | .fetchError => ⟨"Fetch Error", 0, []⟩
  else ⟨"Location could not be processed", 0, []⟩

/-- One accumulation step of the mutable `riskScore` / `analysisNotes`
pair: add the contribution's score and append its notes. -/
def stepAcc (acc contrib : Nat × List String) : Nat × List String :=
  (acc.1 + contrib.1, acc.2 ++ contrib.2)

/-- `let riskScore = 0; const analysisNotes = []`. -/
def state0 : Nat × List String := (0, [])

/-- Accumulator after the temporal analysis. -/
def state1 (r : Report) (h : Option (List Nat)) : Nat × List String :=
  stepAcc state0 (trendStep r h)

/-- Accumulator after the demographic analysis. -/
def state2 (r : Report) (h : Option (List Nat)) : Nat × List String :=
  stepAcc (state1 r h) (demographicStep r)

/-- Accumulator after the severity analysis. -/
def state3 (r : Report) (h : Option (List Nat)) : Nat × List String :=
  stepAcc (state2 r h) (severityStep r)

/-- Accumulator after the water-source analysis. -/
def state4 (r : Report) (h : Option (List Nat)) : Nat × List String :=
  stepAcc (state3 r h) (waterStep r)

/-- Accumulator after the weather analysis (final score and notes). -/
def state5 (r : Report) (h : Option (List Nat)) (w : WeatherFetch) :
    Nat × List String :=
  stepAcc (state4 r h) ((weatherStep r w).score, (weatherStep r w).notes)

/-- Step 6, the final risk level: the `if/else if` chain on
`riskScore`, evaluated highest threshold first; the initial value
`"Normal"` survives only through the final `else`. -/
def riskTier (riskScore : Nat) : String :=
  if 75 ≤ riskScore then "Critical"
  else if 50 ≤ riskScore then "High"
  else if 25 ≤ riskScore then "Warning"
  else if 10 ≤ riskScore then "Low"
  else "Normal"

/-- Body of the Twilio alert message. -/
def alertBody (riskLevel village notesText : String) : String :=
  "ALERT [" ++ riskLevel ++ "]: Outbreak risk in " ++ village ++
    ". Analysis: " ++ notesText ++ ". Check dashboard immediately."

/-- The observable outcome of one `handleNewReport` run: the final
score, the tier, the three fields written back onto the report row
(`risk_level`, `weather_snapshot`, `analysis_notes`), whether the
weather provider was invoked, and whether/what the SMS provider was
asked to send (`none` = Twilio never invoked). -/
structure Analysis where
  riskScore : Nat
  riskLevel : String
  weatherInfo : String
  analysisNotes : List String
  notesText : String
  weatherAttempted : Bool
  smsSent : Bool
  smsBody : Option String
deriving Repr, DecidableEq

/-- The whole scoring pipeline of `handleNewReport`, on the report
picked by the RPC re-fetch.  `history` is the result of the 7-day
same-village query (rows strictly before the report; `none` = query
error), `w` the outcome of the weather fetch. -/
def handleNewReport (r : Report) (history : Option (List Nat))
    (w : WeatherFetch) : Analysis :=
  let final := state5 r history w
  let riskScore := final.1
  let riskLevel := riskTier riskScore
  let notesText := String.intercalate " " final.2
  let smsSent := riskLevel == "High" || riskLevel == "Critical"
  { riskScore := riskScore
    riskLevel := riskLevel
    weatherInfo := (weatherStep r w).info
    analysisNotes := final.2
    notesText := notesText
    weatherAttempted := coordsResolved r
    smsSent := smsSent
    smsBody :=
      if smsSent then some (alertBody riskLevel r.village_name notesText)
      else none }

/-- `const reportToAnalyze = reportData || report`: the RPC re-fetch
result, when present, replaces the webhook record. -/
def handleNewReportRaw (record : Report) (rpcData : Option Report)
    (history : Option (List Nat)) (w : WeatherFetch) : Analysis :=
  handleNewReport (rpcData.getD record) history w

/-- A new user profile as consumed by `handleNewUser`. -/
structure UserProfile where
  id : Nat
  phone : Option String
deriving Repr, DecidableEq

/-- Outcome of `handleNewUser`: whether the allowlist was queried, and
whether the profile's role was updated to `OFFICIAL`. -/
structure RoleOutcome where
  lookupAttempted : Bool
  promoted : Bool
deriving Repr, DecidableEq

/-- The role-assignment flow.  `allowlist` is the
`pre_approved_officials.phone_number` column; `lookupError = true`
models the `.eq(...).limit(1)` query returning an error (logged,
handler returns with no update).  The query itself is
`allowlist.filter (· = phone) |>.take 1`. -/
def handleNewUser (user : UserProfile) (allowlist : List String)
    (lookupError : Bool) : RoleOutcome :=
  match user.phone with
  | none => ⟨false, false⟩
  | some userPhoneNumber =>
    if userPhoneNumber = "" then ⟨false, false⟩
    else if lookupError then ⟨true, false⟩
    else if 0 < ((allowlist.filter (fun p => p = userPhoneNumber)).take 1).length
    then ⟨true, true⟩
    else ⟨true, false⟩

/-! ## Helper lemmas -/

/-- Ordinal rank of the five tier labels (Normal < Low < Warning < High
< Critical). -/
def tierRank : String → Nat
  | "Low" => 1
  | "Warning" => 2
  | "High" => 3
  | "Critical" => 4
  | _ => 0

theorem riskTier_cases (s : Nat) :
    riskTier s = "Normal" ∨ riskTier s = "Low" ∨ riskTier s = "Warning" ∨
      riskTier s = "High" ∨ riskTier s = "Critical" := by
  unfold riskTier
  split_ifs <;> simp

theorem handleNewReport_riskLevel (r : Report) (h : Option (List Nat))
    (w : WeatherFetch) :
    (handleNewReport r h w).riskLevel = riskTier (state5 r h w).1 := rfl

theorem handleNewReport_riskScore (r : Report) (h : Option (List Nat))
    (w : WeatherFetch) :
    (handleNewReport r h w).riskScore = (state5 r h w).1 := rfl

/-! ## C1: tier mapping -/

/-- C1: the score-to-tier mapping is total and monotonic, with
boundary-inclusive ascending thresholds evaluated highest-first:
score ≥ 75 → Critical, 50 ≤ score < 75 → High, 25 ≤ score < 50 →
Warning, 10 ≤ score < 25 → Low, score < 10 → Normal; in particular
scores 0,9,10,24,25,49,50,74,75,100 map to
Normal,Normal,Low,Low,Warning,Warning,High,High,Critical,Critical. -/
theorem riskTier_total_monotone :
    (∀ s : Nat,
      (riskTier s = "Critical" ↔ 75 ≤ s) ∧
      (riskTier s = "High" ↔ 50 ≤ s ∧ s < 75) ∧
      (riskTier s = "Warning" ↔ 25 ≤ s ∧ s < 50) ∧
      (riskTier s = "Low" ↔ 10 ≤ s ∧ s < 25) ∧
      (riskTier s = "Normal" ↔ s < 10)) ∧
    (∀ s t : Nat, s ≤ t → tierRank (riskTier s) ≤ tierRank (riskTier t)) ∧
    riskTier 0 = "Normal" ∧ riskTier 9 = "Normal" ∧ riskTier 10 = "Low" ∧
    riskTier 24 = "Low" ∧ riskTier 25 = "Warning" ∧ riskTier 49 = "Warning" ∧
    riskTier 50 = "High" ∧ riskTier 74 = "High" ∧ riskTier 75 = "Critical" ∧
    riskTier 100 = "Critical" := by
  refine ⟨fun s => ?_, fun s t hst => ?_, ?_⟩
  · unfold riskTier
    split_ifs <;> refine ⟨?_, ?_, ?_, ?_, ?_⟩ <;> simp_all <;> omega
  · unfold riskTier
    split_ifs <;> first | decide | omega
  · refine ⟨?_, ?_, ?_, ?_, ?_, ?_, ?_, ?_, ?_, ?_⟩ <;> decide

/-- Witness for C1 at concrete scores. -/
theorem riskTier_total_monotone_witness :
    tierRank (riskTier 12) ≤ tierRank (riskTier 80) :=
  riskTier_total_monotone.2.1 12 80 (by decide)

/-! ## C2: severity bands -/

/-- C2: with total = diarrhea + fever + vomiting (each 0 if absent), the
severity signal contributes exactly 30 and "High total case count." when
total > 15, exactly 15 and "Moderate total case count." when
8 < total ≤ 15, and exactly 0 with no note when total ≤ 8; the bands are
mutually exclusive, and the signal is the step-3 increment of the run. -/
theorem severity_bands :
    (∀ r : Report,
      totalCases r = r.diarrhea_cases.getD 0 + r.fever_cases.getD 0 +
        r.vomiting_cases.getD 0 ∧
      (severityStep r = (30, ["High total case count."]) ↔ 15 < totalCases r) ∧
      (severityStep r = (15, ["Moderate total case count."]) ↔
        8 < totalCases r ∧ totalCases r ≤ 15) ∧
      (severityStep r = (0, []) ↔ totalCases r ≤ 8)) ∧
    (∀ (r : Report) (h : Option (List Nat)),
      (state3 r h).1 = (state2 r h).1 + (severityStep r).1 ∧
      (state3 r h).2 = (state2 r h).2 ++ (severityStep r).2) ∧
    (∀ r : Report, totalCases r = 16 →
      severityStep r = (30, ["High total case count."])) ∧
    (∀ r : Report, totalCases r = 9 →
      severityStep r = (15, ["Moderate total case count."])) ∧
    (∀ r : Report, totalCases r = 8 → severityStep r = (0, [])) := by
  have bands : ∀ r : Report,
      (severityStep r = (30, ["High total case count."]) ↔ 15 < totalCases r) ∧
      (severityStep r = (15, ["Moderate total case count."]) ↔
        8 < totalCases r ∧ totalCases r ≤ 15) ∧
      (severityStep r = (0, []) ↔ totalCases r ≤ 8) := by
    intro r
    unfold severityStep
    split_ifs <;> refine ⟨?_, ?_, ?_⟩ <;> (simp_all; try omega)
  refine ⟨fun r => ⟨rfl, bands r⟩, fun r h => ⟨rfl, rfl⟩, ?_, ?_, ?_⟩
  · intro r ht
    exact (bands r).1.mpr (by omega)
  · intro r ht
    exact (bands r).2.1.mpr (by omega)
  · intro r ht
    exact (bands r).2.2.mpr (by omega)

/-- Witness for C2: a report with totals 16, 9 and 8. -/
theorem severity_bands_witness :
    severityStep ⟨0, "v", some 16, some 0, some 0, none, none, none, none⟩ =
      (30, ["High total case count."]) ∧
    severityStep ⟨0, "v", some 4, some 3, some 2, none, none, none, none⟩ =
      (15, ["Moderate total case count."]) ∧
    severityStep ⟨0, "v", some 8, none, none, none, none, none, none⟩ =
      (0, []) :=
  ⟨severity_bands.2.2.1 _ (by decide), severity_bands.2.2.2.1 _ (by decide),
    severity_bands.2.2.2.2 _ (by decide)⟩

/-! ## C3: historical trend -/

theorem trendHit_iff (r : Report) (l : List Nat) :
    trendHit r l = true ↔
      0 < histAvg l ∧ histAvg l * 3 < (r.diarrhea_cases.getD 0 : ℚ) := by
  unfold trendHit
  cases hd : r.diarrhea_cases with
  | none =>
    simp only [Bool.and_eq_true, decide_eq_true_eq, Option.getD_none]
    constructor
    · rintro ⟨-, h⟩
      exact absurd h (by simp)
    · rintro ⟨h1, h2⟩
      exact absurd h2 (by push_cast; nlinarith)
  | some d =>
    simp [Bool.and_eq_true, decide_eq_true_eq]

/-- C3: the trend signal contributes exactly 40 with the note
"Case velocity is high (3x historical average)." iff the 7-day
same-village window is non-empty, the mean of its diarrhea counts is
strictly positive, and the report's diarrhea count strictly exceeds 3×
that mean; an empty window — including a failed history query
(`history = none`) — contributes 0 with no note. -/
theorem trend_velocity :
    ∀ (r : Report) (h : Option (List Nat)),
      (trendStep r h = (40, [trendNote]) ∨ trendStep r h = (0, [])) ∧
      (trendStep r h = (40, [trendNote]) ↔
        ∃ l, h = some l ∧ l ≠ [] ∧ 0 < histAvg l ∧
          histAvg l * 3 < (r.diarrhea_cases.getD 0 : ℚ)) ∧
      (h = none → trendStep r h = (0, [])) ∧
      (h = some [] → trendStep r h = (0, [])) := by
  intro r h
  cases h with
  | none => simp [trendStep]
  | some l =>
    refine ⟨?_, ?_, by simp, ?_⟩
    · simp only [trendStep]
      split_ifs <;> simp
    · unfold trendStep
      rcases Nat.eq_zero_or_pos l.length with hl | hl
      · rw [List.length_eq_zero] at hl
        subst hl
        simp [histAvg]
      · simp only [hl, if_true, Option.some.injEq]
        by_cases hhit : trendHit r l = true
        · rw [if_pos hhit]
          rw [trendHit_iff] at hhit
          simp only [Prod.mk.injEq, true_and]
          constructor
          · intro _
            exact ⟨l, rfl, by simpa using List.length_pos.mp hl, hhit.1, hhit.2⟩
          · intro _
            trivial
        · rw [if_neg hhit]
          simp only [Prod.mk.injEq]
          constructor
          · rintro ⟨h40, -⟩
            omega
          · rintro ⟨l', hl', -, havg, hgt⟩
            subst hl'
            exact absurd (trendHit_iff r l |>.mpr ⟨havg, hgt⟩) hhit
    · intro hl
      obtain rfl := Option.some.inj hl
      simp [trendStep]

/-- Witness for C3: a tripled count over history [1,2,3] trips the
signal; an empty or failed window contributes nothing. -/
theorem trend_velocity_witness :
    trendStep ⟨1, "v", some 10, none, none, none, none, none, none⟩
        (some [1, 2, 3]) = (40, [trendNote]) ∧
    trendStep ⟨1, "v", some 10, none, none, none, none, none, none⟩ none =
      (0, []) ∧
    trendStep ⟨1, "v", some 10, none, none, none, none, none, none⟩
        (some []) = (0, []) :=
  ⟨(trend_velocity _ _).2.1.mpr
      ⟨[1, 2, 3], rfl, by simp, by norm_num [histAvg], by norm_num [histAvg]⟩,
    (trend_velocity _ _).2.2.1 rfl, (trend_velocity _ _).2.2.2 rfl⟩

/-! ## C4: alert dispatch -/

/-- C4: the Twilio dispatch runs iff the tier is High or Critical; for
Normal, Low and Warning the provider is never invoked; a dispatched
message contains the tier, the village identifier and the joined
analysis notes. -/
theorem alert_iff_high_or_critical :
    ∀ (r : Report) (h : Option (List Nat)) (w : WeatherFetch),
      ((handleNewReport r h w).smsSent = true ↔
        (handleNewReport r h w).riskLevel = "High" ∨
        (handleNewReport r h w).riskLevel = "Critical") ∧
      ((handleNewReport r h w).smsSent = true ↔
        (handleNewReport r h w).smsBody ≠ none) ∧
      ((handleNewReport r h w).riskLevel = "Normal" ∨
        (handleNewReport r h w).riskLevel = "Low" ∨
        (handleNewReport r h w).riskLevel = "Warning" →
        (handleNewReport r h w).smsSent = false ∧
        (handleNewReport r h w).smsBody = none) ∧
      (∀ m, (handleNewReport r h w).smsBody = some m →
        (∃ x y, m = x ++ ((handleNewReport r h w).riskLevel ++ y)) ∧
        (∃ x y, m = x ++ (r.village_name ++ y)) ∧
        (∃ x y, m = x ++ ((handleNewReport r h w).notesText ++ y))) := by
  intro r h w
  have hsent : (handleNewReport r h w).smsSent =
      ((handleNewReport r h w).riskLevel == "High" ||
        (handleNewReport r h w).riskLevel == "Critical") := rfl
  have hbody : (handleNewReport r h w).smsBody =
      (if (handleNewReport r h w).smsSent then
        some (alertBody (handleNewReport r h w).riskLevel r.village_name
          (handleNewReport r h w).notesText)
      else none) := rfl
  refine ⟨?_, ?_, ?_, ?_⟩
  · rw [hsent]
    simp [beq_iff_eq]
  · rw [hbody]
    by_cases hs : (handleNewReport r h w).smsSent = true <;> simp [hs]
  · intro hlvl
    have hs : (handleNewReport r h w).smsSent = false := by
      rw [hsent]
      rcases hlvl with hl | hl | hl <;> rw [hl] <;> decide
    refine ⟨hs, ?_⟩
    rw [hbody, hs]
    simp
  · intro m hm
    rw [hbody] at hm
    by_cases hs : (handleNewReport r h w).smsSent = true
    · rw [if_pos hs] at hm
      have hm' : m = alertBody (handleNewReport r h w).riskLevel
          r.village_name (handleNewReport r h w).notesText :=
        (Option.some.inj hm).symm
      subst hm'
      refine ⟨⟨"ALERT [", ?_, ?_⟩, ?_, ?_⟩
      · exact "]: Outbreak risk in " ++ r.village_name ++ ". Analysis: " ++
          (handleNewReport r h w).notesText ++ ". Check dashboard immediately."
      · simp [alertBody, String.append_assoc]
      · refine ⟨"ALERT [" ++ (handleNewReport r h w).riskLevel ++
          "]: Outbreak risk in ", ". Analysis: " ++
          (handleNewReport r h w).notesText ++
          ". Check dashboard immediately.", ?_⟩
        simp [alertBody, String.append_assoc]
      · refine ⟨"ALERT [" ++ (handleNewReport r h w).riskLevel ++
          "]: Outbreak risk in " ++ r.village_name ++ ". Analysis: ",
          ". Check dashboard immediately.", ?_⟩
        simp [alertBody, String.append_assoc]
    · rw [if_neg hs] at hm
      exact absurd hm (by simp)

/-- Witness for C4: the worked example dispatches, and its message is
the composed alert body. -/
theorem alert_iff_high_or_critical_witness :
    (handleNewReport ⟨1, "v", some 20, some 0, some 0, some 6, some "River",
        none, none⟩ (some []) .fetchError).smsSent = true :=
  (alert_iff_high_or_critical _ (some []) .fetchError).1.mpr (Or.inr (by decide))

/-! ## C5: end-to-end example -/

theorem weatherStep_score_le (r : Report) (w : WeatherFetch) :
    (weatherStep r w).score ≤ 10 := by
  unfold weatherStep
  split_ifs
  · cases w with
    | success d t m =>
      simp only
      split_ifs <;> simp
    | apiError m => simp
    | fetchError => simp
  · simp

/-- The §8 end-to-end example report: diarrhea 20, fever 0, vomiting 0,
children 6, water source River, coordinates (12.9, 77.6). -/
def exampleReport : Report :=
  ⟨1, "Rampur", some 20, some 0, some 0, some 6, some "River",
    some (129 / 10), some (776 / 10)⟩

theorem exampleReport_coords : coordsResolved exampleReport = true := by
  norm_num [coordsResolved, numTruthy, exampleReport]

/-- C5: on the example report with an empty historical window, the
demographic signal adds 50, severity (total 20) adds 30, environmental
adds 10, trend adds nothing, so the score is 90 plus the weather
contribution (at most 10), the tier is Critical and the alert is
dispatched — whatever the weather fetch returns. -/
theorem example_report_critical :
    ∀ w : WeatherFetch,
      trendStep exampleReport (some []) = (0, []) ∧
      demographicStep exampleReport = (50, [demographicNote]) ∧
      severityStep exampleReport = (30, ["High total case count."]) ∧
      waterStep exampleReport = (10, [waterNote "River"]) ∧
      (handleNewReport exampleReport (some []) w).riskScore =
        90 + (weatherStep exampleReport w).score ∧
      (weatherStep exampleReport w).score ≤ 10 ∧
      (handleNewReport exampleReport (some []) w).riskLevel = "Critical" ∧
      (handleNewReport exampleReport (some []) w).smsSent = true := by
  intro w
  have hscore : (handleNewReport exampleReport (some []) w).riskScore =
      90 + (weatherStep exampleReport w).score := by
    show (state5 exampleReport (some []) w).1 = _
    simp only [state5, state4, state3, state2, state1, state0, stepAcc]
    norm_num [trendStep, demographicStep, severityStep, waterStep,
      totalCases, exampleReport]
  have hcrit : 75 ≤ 90 + (weatherStep exampleReport w).score := by omega
  have hlvl : (handleNewReport exampleReport (some []) w).riskLevel =
      "Critical" := by
    rw [handleNewReport_riskLevel, ← handleNewReport_riskScore, hscore,
      riskTier, if_pos hcrit]
  refine ⟨by decide, by decide, by decide, by decide, hscore,
    weatherStep_score_le _ _, hlvl, ?_⟩
  show ((handleNewReport exampleReport (some []) w).riskLevel == "High" ||
    (handleNewReport exampleReport (some []) w).riskLevel == "Critical") = true
  rw [hlvl]
  decide

/-! ## C6: weather-provider failure degrades gracefully -/

theorem apiError_ne_fetchError (x : String) :
    "API Error: " ++ x ≠ "Fetch Error" := by
  intro heq
  have hd := congrArg (fun s => s.data.head?) heq
  simp only [String.data_append] at hd
  simp at hd

/-- C6: with resolved coordinates, a non-2xx weather response or a
thrown fetch error contributes 0 to the score, sets the snapshot to
"API Error: <message or Invalid Key?>" (non-2xx) or the distinct
"Fetch Error" (transport), and the tier is still computed from the
remaining signals and written onto the report; the embedding is a total
function, so no exception escapes the pipeline. -/
theorem weather_failure_graceful :
    ∀ (r : Report) (h : Option (List Nat)) (msg : Option String),
      coordsResolved r = true →
      weatherStep r (.apiError msg) =
        ⟨"API Error: " ++ strOrDefault msg "Invalid Key?", 0, []⟩ ∧
      weatherStep r .fetchError = ⟨"Fetch Error", 0, []⟩ ∧
      (handleNewReport r h (.apiError msg)).riskScore = (state4 r h).1 ∧
      (handleNewReport r h .fetchError).riskScore = (state4 r h).1 ∧
      (handleNewReport r h (.apiError msg)).riskLevel =
        riskTier (state4 r h).1 ∧
      (handleNewReport r h .fetchError).riskLevel =
        riskTier (state4 r h).1 ∧
      (handleNewReport r h (.apiError msg)).weatherInfo =
        "API Error: " ++ strOrDefault msg "Invalid Key?" ∧
      (handleNewReport r h .fetchError).weatherInfo = "Fetch Error" ∧
      "API Error: " ++ strOrDefault msg "Invalid Key?" ≠ "Fetch Error" := by
  intro r h msg hres
  have hapi : weatherStep r (.apiError msg) =
      ⟨"API Error: " ++ strOrDefault msg "Invalid Key?", 0, []⟩ := by
    unfold weatherStep
    rw [if_pos hres]
  have hfetch : weatherStep r .fetchError = ⟨"Fetch Error", 0, []⟩ := by
    unfold weatherStep
    rw [if_pos hres]
  have hsapi : (handleNewReport r h (.apiError msg)).riskScore =
      (state4 r h).1 := by
    rw [handleNewReport_riskScore]
    show (state4 r h).1 + (weatherStep r (.apiError msg)).score = _
    rw [hapi]
    rfl
  have hsfetch : (handleNewReport r h .fetchError).riskScore =
      (state4 r h).1 := by
    rw [handleNewReport_riskScore]
    show (state4 r h).1 + (weatherStep r .fetchError).score = _
    rw [hfetch]
    rfl
  refine ⟨hapi, hfetch, hsapi, hsfetch, ?_, ?_, ?_, ?_,
    apiError_ne_fetchError _⟩
  · rw [handleNewReport_riskLevel, ← handleNewReport_riskScore, hsapi]
  · rw [handleNewReport_riskLevel, ← handleNewReport_riskScore, hsfetch]
  · show (weatherStep r (.apiError msg)).info = _
    rw [hapi]
  · show (weatherStep r .fetchError).info = _
    rw [hfetch]

/-- Witness for C6: a report with unit coordinates, an empty window and
a message-less API error still gets a tier. -/
theorem weather_failure_graceful_witness :
    (handleNewReport ⟨1, "v", some 20, some 0, some 0, some 6, some "River",
        some 1, some 1⟩ (some []) (.apiError none)).riskLevel =
      riskTier (state4 ⟨1, "v", some 20, some 0, some 0, some 6, some "River",
        some 1, some 1⟩ (some [])).1 :=
  (weather_failure_graceful _ (some []) none
    (by simp [coordsResolved, numTruthy])).2.2.2.2.1

/-! ## C7: unresolved coordinates -/

/-- C7: the weather lookup is attempted exactly when both coordinates
are present and non-zero; otherwise it is never attempted, the snapshot
is the "Location could not be processed" sentinel, and the weather
signal contributes 0. -/
theorem unresolved_coords_skip_weather :
    ∀ (r : Report) (h : Option (List Nat)) (w : WeatherFetch),
      ((handleNewReport r h w).weatherAttempted = true ↔
        coordsResolved r = true) ∧
      (coordsResolved r = true ↔
        (∃ la, r.lat = some la ∧ la ≠ 0) ∧
        (∃ lo, r.lon = some lo ∧ lo ≠ 0)) ∧
      (coordsResolved r = false →
        weatherStep r w = ⟨"Location could not be processed", 0, []⟩ ∧
        (handleNewReport r h w).weatherAttempted = false ∧
        (handleNewReport r h w).weatherInfo =
          "Location could not be processed" ∧
        (handleNewReport r h w).riskScore = (state4 r h).1) := by
  intro r h w
  have hatt : (handleNewReport r h w).weatherAttempted = coordsResolved r :=
    rfl
  refine ⟨by rw [hatt], ?_, ?_⟩
  · unfold coordsResolved numTruthy
    cases r.lat with
    | none => simp
    | some la =>
      cases r.lon with
      | none => simp
      | some lo => simp [bne_iff_ne]
  · intro hres
    have hws : weatherStep r w =
        ⟨"Location could not be processed", 0, []⟩ := by
      unfold weatherStep
      rw [hres]
      simp
    refine ⟨hws, by rw [hatt, hres], ?_, ?_⟩
    · show (weatherStep r w).info = _
      rw [hws]
    · rw [handleNewReport_riskScore]
      show (state4 r h).1 + (weatherStep r w).score = _
      rw [hws]
      rfl

/-- Witness for C7: a report with no coordinates never reaches the
weather provider and keeps the sentinel snapshot. -/
theorem unresolved_coords_skip_weather_witness :
    weatherStep ⟨1, "v", some 2, none, none, none, none, none, none⟩
        .fetchError = ⟨"Location could not be processed", 0, []⟩ :=
  ((unresolved_coords_skip_weather _ none .fetchError).2.2 (by decide)).1

/-! ## C8: role assignment -/

theorem filter_pos_iff (allowlist : List String) (p : String) :
    0 < (allowlist.filter (fun q => q = p)).length ↔ p ∈ allowlist := by
  constructor
  · intro hfil
    obtain ⟨a, ha⟩ := List.exists_mem_of_length_pos hfil
    have hmem := List.mem_filter.mp ha
    have haeq : a = p := by simpa using hmem.2
    exact haeq ▸ hmem.1
  · intro hmem
    have hin : p ∈ allowlist.filter (fun q => q = p) :=
      List.mem_filter.mpr ⟨hmem, by simp⟩
    exact List.length_pos.mpr (List.ne_nil_of_mem hin)

/-- C8: the role is promoted to OFFICIAL iff the profile carries a
non-empty phone number that exactly matches an allowlist entry and the
lookup does not error; an absent or empty phone number short-circuits
with no lookup, and a lookup error keeps the default role (fails
closed). -/
theorem role_assignment :
    ∀ (user : UserProfile) (allowlist : List String) (lookupError : Bool),
      ((handleNewUser user allowlist lookupError).promoted = true ↔
        lookupError = false ∧
          ∃ p, user.phone = some p ∧ p ≠ "" ∧ p ∈ allowlist) ∧
      ((handleNewUser user allowlist lookupError).lookupAttempted = true ↔
        ∃ p, user.phone = some p ∧ p ≠ "") ∧
      (user.phone = none ∨ user.phone = some "" →
        handleNewUser user allowlist lookupError = ⟨false, false⟩) ∧
      (lookupError = true →
        (handleNewUser user allowlist lookupError).promoted = false) := by
  intro user allowlist lookupError
  cases hp : user.phone with
  | none => simp [handleNewUser, hp]
  | some p =>
    by_cases hpe : p = ""
    · subst hpe
      simp [handleNewUser, hp]
    · cases lookupError with
      | true => simp [handleNewUser, hp, hpe]
      | false =>
        by_cases hm : p ∈ allowlist
        · have hfil := (filter_pos_iff allowlist p).mpr hm
          simp [handleNewUser, hp, hpe, hfil, hm, List.length_take]
        · have hfil : ¬ 0 < (allowlist.filter (fun q => q = p)).length :=
            fun hc => hm ((filter_pos_iff allowlist p).mp hc)
          simp [handleNewUser, hp, hpe, hfil, hm, List.length_take]

/-- Witness for C8: a matching phone number is promoted; an empty one
short-circuits. -/
theorem role_assignment_witness :
    (handleNewUser ⟨7, some "+911234"⟩ ["+911234", "+915555"] false).promoted =
      true ∧
    handleNewUser ⟨8, none⟩ ["+911234"] false = ⟨false, false⟩ :=
  ⟨(role_assignment ⟨7, some "+911234"⟩ ["+911234", "+915555"] false).1.mpr
      ⟨rfl, "+911234", rfl, by decide, by simp⟩,
    (role_assignment ⟨8, none⟩ ["+911234"] false).2.2.1 (Or.inl rfl)⟩

/-! ## C9: note ordering and persistence -/

/-- C9: the analysis-notes text written onto the report is the appended
notes joined with a single space, in the fixed order trend →
demographic → severity → environmental → weather; the run is a pure
function of its inputs, so the text is reproducible byte-for-byte. -/
theorem notes_join_order :
    ∀ (r : Report) (h : Option (List Nat)) (w : WeatherFetch),
      (handleNewReport r h w).analysisNotes =
        (trendStep r h).2 ++ (demographicStep r).2 ++ (severityStep r).2 ++
          (waterStep r).2 ++ (weatherStep r w).notes ∧
      (handleNewReport r h w).notesText =
        String.intercalate " "
          ((trendStep r h).2 ++ (demographicStep r).2 ++ (severityStep r).2 ++
            (waterStep r).2 ++ (weatherStep r w).notes) := by
  intro r h w
  have hnotes : (handleNewReport r h w).analysisNotes =
      (trendStep r h).2 ++ (demographicStep r).2 ++ (severityStep r).2 ++
        (waterStep r).2 ++ (weatherStep r w).notes := by
    show (state5 r h w).2 = _
    simp [state5, state4, state3, state2, state1, state0, stepAcc]
  exact ⟨hnotes, by rw [show (handleNewReport r h w).notesText =
    String.intercalate " " (handleNewReport r h w).analysisNotes from rfl,
    hnotes]⟩

/-! ## C10: score/notes invariant -/

/-- The fixed score delta each analysis note stands for. -/
def noteDelta (s : String) : Nat :=
  if s = trendNote then 40
  else if s = demographicNote then 50
  else if s = "High total case count." then 30
  else if s = "Moderate total case count." then 15
  else if s = waterNote "Community Well" ∨ s = waterNote "River" then 10
  else if s = rainNote then 10
  else 0

theorem trendStep_delta (r : Report) (h : Option (List Nat)) :
    (trendStep r h).1 = ((trendStep r h).2.map noteDelta).sum ∧
      (trendStep r h).1 ≤ 40 := by
  rcases (trend_velocity r h).1 with heq | heq <;> rw [heq] <;>
    exact ⟨by decide, by decide⟩

theorem demographicStep_delta (r : Report) :
    (demographicStep r).1 = ((demographicStep r).2.map noteDelta).sum ∧
      (demographicStep r).1 ≤ 50 := by
  unfold demographicStep
  cases r.cases_in_children with
  | none => exact ⟨by decide, by decide⟩
  | some c =>
    simp only
    split_ifs <;> exact ⟨by decide, by decide⟩

theorem severityStep_delta (r : Report) :
    (severityStep r).1 = ((severityStep r).2.map noteDelta).sum ∧
      (severityStep r).1 ≤ 30 := by
  unfold severityStep
  split_ifs <;> exact ⟨by decide, by decide⟩

theorem waterStep_delta (r : Report) :
    (waterStep r).1 = ((waterStep r).2.map noteDelta).sum ∧
      (waterStep r).1 ≤ 10 := by
  unfold waterStep
  cases r.water_source_tested with
  | none => exact ⟨by decide, by decide⟩
  | some src =>
    simp only
    split_ifs with hsrc
    · rcases hsrc with hsrc | hsrc <;> subst hsrc <;>
        exact ⟨by decide, by decide⟩
    · exact ⟨by decide, by decide⟩

theorem noteDelta_rain : noteDelta rainNote = 10 := by decide

theorem weatherStep_delta (r : Report) (w : WeatherFetch) :
    (weatherStep r w).score = ((weatherStep r w).notes.map noteDelta).sum := by
  unfold weatherStep
  split_ifs
  · cases w with
    | success d t m =>
      simp only
      split_ifs
      · simp [noteDelta_rain]
      · rfl
    | apiError m => rfl
    | fetchError => rfl
  · rfl

theorem stateSum_delta (r : Report) (h : Option (List Nat))
    (w : WeatherFetch) :
    (state1 r h).1 = ((state1 r h).2.map noteDelta).sum ∧
    (state2 r h).1 = ((state2 r h).2.map noteDelta).sum ∧
    (state3 r h).1 = ((state3 r h).2.map noteDelta).sum ∧
    (state4 r h).1 = ((state4 r h).2.map noteDelta).sum ∧
    (state5 r h w).1 = ((state5 r h w).2.map noteDelta).sum := by
  have h1 := (trendStep_delta r h).1
  have h2 := (demographicStep_delta r).1
  have h3 := (severityStep_delta r).1
  have h4 := (waterStep_delta r).1
  have h5 := weatherStep_delta r w
  refine ⟨?_, ?_, ?_, ?_, ?_⟩ <;>
    (simp [state1, state2, state3, state4, state5, state0, stepAcc,
       List.map_append, List.sum_append, h1, h2, h3, h4, h5];
     try omega)

/-- C10: throughout a scoring run the accumulator equals the sum of the
fixed per-note deltas of the notes appended so far (40 trend, 50
demographic, 30/15 severity, 10 water, 10 rain), so the score never
decreases across the five steps and the final score is at most 140. -/
theorem score_note_invariant :
    ∀ (r : Report) (h : Option (List Nat)) (w : WeatherFetch),
      ((state1 r h).1 = ((state1 r h).2.map noteDelta).sum ∧
       (state2 r h).1 = ((state2 r h).2.map noteDelta).sum ∧
       (state3 r h).1 = ((state3 r h).2.map noteDelta).sum ∧
       (state4 r h).1 = ((state4 r h).2.map noteDelta).sum ∧
       (state5 r h w).1 = ((state5 r h w).2.map noteDelta).sum) ∧
      (state0.1 ≤ (state1 r h).1 ∧ (state1 r h).1 ≤ (state2 r h).1 ∧
       (state2 r h).1 ≤ (state3 r h).1 ∧ (state3 r h).1 ≤ (state4 r h).1 ∧
       (state4 r h).1 ≤ (state5 r h w).1) ∧
      (handleNewReport r h w).riskScore = (state5 r h w).1 ∧
      (state5 r h w).1 ≤ 140 ∧
      noteDelta trendNote = 40 ∧ noteDelta demographicNote = 50 ∧
      noteDelta "High total case count." = 30 ∧
      noteDelta "Moderate total case count." = 15 ∧
      noteDelta (waterNote "Community Well") = 10 ∧
      noteDelta (waterNote "River") = 10 ∧ noteDelta rainNote = 10 := by
  intro r h w
  have hb1 := (trendStep_delta r h).2
  have hb2 := (demographicStep_delta r).2
  have hb3 := (severityStep_delta r).2
  have hb4 := (waterStep_delta r).2
  have hb5 := weatherStep_score_le r w
  have hchain : state0.1 ≤ (state1 r h).1 ∧ (state1 r h).1 ≤ (state2 r h).1 ∧
      (state2 r h).1 ≤ (state3 r h).1 ∧ (state3 r h).1 ≤ (state4 r h).1 ∧
      (state4 r h).1 ≤ (state5 r h w).1 := by
    refine ⟨?_, ?_, ?_, ?_, ?_⟩ <;>
      simp [state1, state2, state3, state4, state5, state0, stepAcc]
  have hbound : (state5 r h w).1 ≤ 140 := by
    have hval : (state5 r h w).1 = (trendStep r h).1 + (demographicStep r).1 +
        (severityStep r).1 + (waterStep r).1 + (weatherStep r w).score := by
      simp [state1, state2, state3, state4, state5, state0, stepAcc]
    omega
  exact ⟨stateSum_delta r h w, hchain, rfl, hbound, by decide, by decide,
    by decide, by decide, by decide, by decide, by decide⟩
